import Mathlib

/-!
Shallow embedding of the `tabella` multi-mode interpreter
(`src/lib/interpreter.ts`, `src/lib/targetGenerator.ts`, `src/lib/mazeGenerator.ts`)
together with proofs about its parser, loader, execution engine and scorer.

Conventions of the embedding:
* JavaScript numbers that are only ever non-negative integers are `Nat`;
  numbers that can go negative (turtle coordinates, `lastPos`, grid deltas,
  heading degrees) are `Int`.  JavaScript `%` (remainder, truncating) is
  `Int.tmod`.
* `Cell` (`{ color: Color | null }`) is `Option Color`; a `Grid` is a list of
  rows, each row a list of cells.
* `throw new Error(...)` is modelled by an error value of the inductive
  `Err`; the textual messages are abstracted into constructors (no claim
  depends on the exact message string).
* Mutation of local copies in `step` is modelled by explicit state passing;
  a thrown error returns the state exactly as mutated up to the throw,
  matching the `catch` block which commits the partially-updated locals.
* The `originalLine` field carried by every parsed command is stored by the
  source but never read by loader, engine or scorer; it is omitted here.
-/

namespace Tabella

/-- The closed color alphabet of `interpreter.ts` (`type Color`). -/
inductive Color where
  | R | G | B | W | Y | C | M
deriving DecidableEq, Repr

/-- A cell is an optional color (`{ color: Color | null }`). -/
abbrev Cell := Option Color

/-- A grid is a row-major matrix of cells. -/
abbrev Grid := List (List Cell)

/-- The five interpreter modes. -/
inductive Mode where
  | TABLE | GRID | MAZE | MATRIX | PIXEL
deriving DecidableEq, Repr

/-- `MAX_ROWS` from the source. -/
def MAX_ROWS : Nat := 16

/-- `MAX_COLS` from the source. -/
def MAX_COLS : Nat := 16

/-- `createEmptyGrid` from the source. -/
def createEmptyGrid (rows cols : Nat) : Grid :=
  List.replicate rows (List.replicate cols (none : Cell))

/-- PIXEL-mode command tree (`PixelCommand`): `action` is PAINT, SKIP or
LOOP; PAINT carries an optional color (the source reads `pCmd.color || null`),
LOOP carries a count and a nested body.  Each node keeps its 0-based source
line number. -/
inductive PixelCmd where
  | paint (color : Option Color) (lineNumber : Nat)
  | skip (lineNumber : Nat)
  | loop (loopCount : Nat) (loopCommands : List PixelCmd) (lineNumber : Nat)

mutual

/-- Decidable equality for the nested `PixelCmd` tree. -/
def decEqPixelCmd : (a b : PixelCmd) → Decidable (a = b)
  | .paint c1 l1, .paint c2 l2 =>
      if h : c1 = c2 ∧ l1 = l2 then isTrue (by rw [h.1, h.2])
      else isFalse (by intro he; cases he; exact h ⟨rfl, rfl⟩)
  | .skip l1, .skip l2 =>
      if h : l1 = l2 then isTrue (by rw [h])
      else isFalse (by intro he; cases he; exact h rfl)
  | .loop n1 b1 l1, .loop n2 b2 l2 =>
      match decEqPixelCmdList b1 b2 with
      | isTrue hb =>
          if h : n1 = n2 ∧ l1 = l2 then isTrue (by rw [h.1, hb, h.2])
          else isFalse (by intro he; cases he; exact h ⟨rfl, rfl⟩)
      | isFalse hb => isFalse (by intro he; cases he; exact hb rfl)
  | .paint _ _, .skip _ => isFalse nofun
  | .paint _ _, .loop _ _ _ => isFalse nofun
  | .skip _, .paint _ _ => isFalse nofun
  | .skip _, .loop _ _ _ => isFalse nofun
  | .loop _ _ _, .paint _ _ => isFalse nofun
  | .loop _ _ _, .skip _ => isFalse nofun

/-- Decidable equality for lists of `PixelCmd`. -/
def decEqPixelCmdList : (a b : List PixelCmd) → Decidable (a = b)
  | [], [] => isTrue rfl
  | [], _ :: _ => isFalse nofun
  | _ :: _, [] => isFalse nofun
  | x :: xs, y :: ys =>
      match decEqPixelCmd x y with
      | isTrue hx =>
          match decEqPixelCmdList xs ys with
          | isTrue hxs => isTrue (by rw [hx, hxs])
          | isFalse hxs => isFalse (by intro he; cases he; exact hxs rfl)
      | isFalse hx => isFalse (by intro he; cases he; exact hx rfl)

end

instance : DecidableEq PixelCmd := decEqPixelCmd

/-- The tagged command union (`type Command`).  `MATRIX` stores the parsed
`operation` as `plus : Bool` (`true` for `+`), `isRow` and the 0-based
`index`. -/
inductive Command where
  | START (rows cols : Nat) (lineNumber : Nat)
  | COLOR (count : Nat) (color : Color) (row col : Nat) (lineNumber : Nat)
  | GRID_COLOR (count : Nat) (color : Color) (deltaX deltaY : Int) (lineNumber : Nat)
  | RUOTA (degrees : Int) (lineNumber : Nat)
  | MUOVI (steps : Nat) (lineNumber : Nat)
  | MATRIX (plus : Bool) (isRow : Bool) (index : Nat) (lineNumber : Nat)
  | PIXEL_CMD (cmd : PixelCmd)
deriving DecidableEq

/-- Source line number of a command (`cmd.lineNumber`). -/
def Command.lineNumber : Command → Nat
  | .START _ _ ln => ln
  | .COLOR _ _ _ _ ln => ln
  | .GRID_COLOR _ _ _ _ ln => ln
  | .RUOTA _ ln => ln
  | .MUOVI _ ln => ln
  | .MATRIX _ _ _ ln => ln
  | .PIXEL_CMD c =>
    match c with
    | .paint _ ln => ln
    | .skip ln => ln
    | .loop _ _ ln => ln

/-- Errors thrown by parser, loader and engine.  Each constructor stands for
one `throw new Error(...)` site; the 0-based line number is carried where the
message interpolates it. -/
inductive Err where
  | syntaxUnbalancedParen (lineNumber : Nat)
  | syntaxInvalidColorString (lineNumber : Nat)
  | syntaxUnknownCommand (lineNumber : Nat) (word : List Char)
  | syntaxUnexpectedChar (lineNumber : Nat)
  | syntaxInvalidFormat (lineNumber : Nat)
  | multipleStart (lineNumber : Nat)
  | dimensionsExceedMax (lineNumber : Nat)
  | colorBeforeStart (lineNumber : Nat)
  | runtimeOutOfBounds (lineNumber : Nat)
  | runtimeExceedsColumns (lineNumber : Nat)
  | mazeWallOrOutOfBounds
  | mazeWallCollision
  | unsupportedInMode
  | gridNotInit
  | mazeNotInit
  | invalidPixelCommand
deriving DecidableEq, Repr

/-- Decidable equality on parse results, so that concrete runs of the parser
can be checked by `decide`. -/
instance {ε α : Type} [DecidableEq ε] [DecidableEq α] : DecidableEq (Except ε α)
  | .ok a, .ok b =>
      if h : a = b then isTrue (by rw [h])
      else isFalse (by intro he; cases he; exact h rfl)
  | .error a, .error b =>
      if h : a = b then isTrue (by rw [h])
      else isFalse (by intro he; cases he; exact h rfl)
  | .ok _, .error _ => isFalse nofun
  | .error _, .ok _ => isFalse nofun

/-! ### String-scanning helpers (JS regex matching made explicit) -/

/-- Whitespace as matched by JS `trim()` / `\s` (restricted to the characters
that can occur in program text). -/
def isWsChar (ch : Char) : Bool :=
  ch = ' ' || ch = '\t' || ch = '\r' || ch = '\n'

/-- ASCII digit test. -/
def isDigitChar (ch : Char) : Bool :=
  '0' ≤ ch && ch ≤ '9'

/-- ASCII letter test (`[a-zA-Z]`). -/
def isLetterChar (ch : Char) : Bool :=
  ('a' ≤ ch && ch ≤ 'z') || ('A' ≤ ch && ch ≤ 'Z')

/-- Left trim. -/
def trimL (s : List Char) : List Char := s.dropWhile isWsChar

/-- Right trim. -/
def trimR (s : List Char) : List Char := (s.reverse.dropWhile isWsChar).reverse

/-- JS `String.prototype.trim`. -/
def trimStr (s : List Char) : List Char := trimR (trimL s)

/-- Digit value of an ASCII digit. -/
def digitVal (ch : Char) : Nat := ch.toNat - 48

/-- Value of a digit run (JS `parseInt(d, 10)` on a digit-only string). -/
def natOfDigits (ds : List Char) : Nat :=
  ds.foldl (fun n ch => n * 10 + digitVal ch) 0

/-- Split a run of leading digits (`^\d+`); `none` if the first char is not a
digit. -/
def takeDigits (s : List Char) : Option (List Char × List Char) :=
  if (s.takeWhile isDigitChar).isEmpty then none
  else some (s.takeWhile isDigitChar, s.dropWhile isDigitChar)

/-- Match one-or-more whitespace (`\s+`), returning the rest. -/
def matchWs1 (s : List Char) : Option (List Char) :=
  match s with
  | [] => none
  | ch :: rest => if isWsChar ch then some (trimL rest) else none

/-! ### PIXEL sequence parser (`parsePixelSequence`) -/

/-- `getMixedColor` from the source: the color denoted by a string according
to which of R, G, B it contains (case-insensitive). -/
def getMixedColor (s : List Char) : Option Color :=
  let up := s.map Char.toUpper
  let hasR := up.contains 'R'
  let hasG := up.contains 'G'
  let hasB := up.contains 'B'
  if hasR && hasG && hasB then some .W
  else if hasR && hasG then some .Y
  else if hasG && hasB then some .C
  else if hasR && hasB then some .M
  else if hasR then some .R
  else if hasG then some .G
  else if hasB then some .B
  else none

/-- Test for a letter denoting a primary color component (`[RGB]` with the
`i` flag). -/
def isRGBChar (ch : Char) : Bool :=
  ch.toUpper = 'R' || ch.toUpper = 'G' || ch.toUpper = 'B'

/-- One step of the source's parenthesis-depth bookkeeping: `depth++` on
`(`, `depth--` on `)`. -/
def parenDepthStep (ch : Char) (depth : Nat) : Nat :=
  if ch = ')' then (if ch = '(' then depth + 1 else depth) - 1
  else (if ch = '(' then depth + 1 else depth)

/-- Matching-parenthesis scan of the source: starting at depth 1, walk the
characters adjusting depth at `(` and `)` and return the index where depth
reaches 0, or `none` (`endIdx = -1`). -/
def findClose : List Char → Nat → Nat → Option Nat
  | [], _, _ => none
  | ch :: rest, depth, idx =>
      if parenDepthStep ch depth = 0 then some idx
      else findClose rest (parenDepthStep ch depth) (idx + 1)

/-- Match of `^(\d+)\s*\*\s*\(` returning the loop count and the text after
the opening parenthesis (group 2 of the source's `loopMatch`). -/
def stripLoopHead (s : List Char) : Option (Nat × List Char) :=
  match takeDigits s with
  | none => none
  | some (ds, rest1) =>
      match rest1.dropWhile isWsChar with
      | [] => none
      | c2 :: rest3 =>
          if c2 = '*' then
            match rest3.dropWhile isWsChar with
            | [] => none
            | c3 :: inner =>
                if c3 = '(' then some (natOfDigits ds, inner) else none
          else none

/-- Length of OFF/SKIP token at the head of the text: the source tries
`/^(OFF|O)(?![A-Z])/i` then `/^(OFF|O)/i`, whose combined effect is to
consume `OFF` when present, else a single `O`, case-insensitively. -/
def offTokenLen (s : List Char) : Nat :=
  match s with
  | [] => 0
  | c1 :: tail =>
      if c1.toUpper = 'O' then
        match tail with
        | c2 :: c3 :: _ => if c2.toUpper = 'F' && c3.toUpper = 'F' then 3 else 1
        | _ => 1
      else 0

/-- Worker of `parsePixelSequence`: one iteration of the source's `while`
loop per recursive call, consuming separators, loops `N * ( ... )`, `OFF`/`O`
skips and `[RGB]+` paint tokens from the head of the (trimmed) text.

The `fuel` argument makes the recursion structural; every iteration of the
source's loop consumes at least one character, so calling with
`fuel = text.length` (as `parsePixelSequence` does) never reaches the
fuel-exhausted fallback: every consumed token is non-empty and trimming
never lengthens the text. -/
def parsePixelGo (lineNumber : Nat) : Nat → List Char → Except Err (List PixelCmd)
  | _, [] => .ok []
  | 0, _ :: _ => .ok []
  | fuel + 1, ch :: rest =>
    if ch = '+' then
      parsePixelGo lineNumber fuel (trimStr rest)
    else
      match stripLoopHead (ch :: rest) with
      | some (count, inner) =>
          match findClose inner 1 0 with
          | none => .error (.syntaxUnbalancedParen lineNumber)
          | some endIdx =>
              match parsePixelGo lineNumber fuel (trimStr (inner.take endIdx)) with
              | .error e => .error e
              | .ok nested =>
                  match parsePixelGo lineNumber fuel
                      (trimStr (inner.drop (endIdx + 1))) with
                  | .error e => .error e
                  | .ok cmds => .ok (.loop count nested lineNumber :: cmds)
      | none =>
          if 0 < offTokenLen (ch :: rest) then
            match parsePixelGo lineNumber fuel
                (trimStr ((ch :: rest).drop (offTokenLen (ch :: rest)))) with
            | .error e => .error e
            | .ok cmds => .ok (.skip lineNumber :: cmds)
          else
            if (ch :: rest).takeWhile isRGBChar = [] then
              if (ch :: rest).takeWhile isLetterChar = [] then
                .error (.syntaxUnexpectedChar lineNumber)
              else
                .error (.syntaxUnknownCommand lineNumber
                  ((ch :: rest).takeWhile isLetterChar))
            else
              match getMixedColor ((ch :: rest).takeWhile isRGBChar) with
              | some color =>
                  match parsePixelGo lineNumber fuel
                      (trimStr ((ch :: rest).dropWhile isRGBChar)) with
                  | .error e => .error e
                  | .ok cmds => .ok (.paint (some color) lineNumber :: cmds)
              | none => .error (.syntaxInvalidColorString lineNumber)

/-- `parsePixelSequence` from the source (which trims its input before the
scan loop). -/
def parsePixelSequence (text : List Char) (lineNumber : Nat) :
    Except Err (List PixelCmd) :=
  parsePixelGo lineNumber (trimStr text).length (trimStr text)

/-! ### Line parser (`parseLine`) -/

/-- A single color letter `[RGB]` (case-insensitive). -/
def rgbOfChar (ch : Char) : Option Color :=
  if ch.toUpper = 'R' then some .R
  else if ch.toUpper = 'G' then some .G
  else if ch.toUpper = 'B' then some .B
  else none

/-- Match `^([+-]?\d+)` (a signed integer), returning its value and the
rest. -/
def takeSignedInt (s : List Char) : Option (Int × List Char) :=
  match s with
  | '+' :: rest =>
      (takeDigits rest).map (fun p => ((natOfDigits p.1 : Int), p.2))
  | '-' :: rest =>
      (takeDigits rest).map (fun p => (-(natOfDigits p.1 : Int), p.2))
  | _ => (takeDigits s).map (fun p => ((natOfDigits p.1 : Int), p.2))

/-- Match `^(\d+)#(\d+)$` (the dimension / Start line). -/
def matchStartLine (s : List Char) : Option (Nat × Nat) :=
  match takeDigits s with
  | some (d1, '#' :: r2) =>
      match takeDigits r2 with
      | some (d2, []) => some (natOfDigits d1, natOfDigits d2)
      | _ => none
  | _ => none

/-- Match `^(\d+)\s+([RGB])\s+(\d+)\s+(\d+)$` case-insensitively (the TABLE
paint line). -/
def matchColorLine (s : List Char) : Option (Nat × Color × Nat × Nat) :=
  match takeDigits s with
  | none => none
  | some (d1, r1) =>
  match matchWs1 r1 with
  | none => none
  | some r2 =>
  match r2 with
  | [] => none
  | ch :: r3 =>
  match rgbOfChar ch with
  | none => none
  | some col =>
  match matchWs1 r3 with
  | none => none
  | some r4 =>
  match takeDigits r4 with
  | none => none
  | some (d2, r5) =>
  match matchWs1 r5 with
  | none => none
  | some r6 =>
  match takeDigits r6 with
  | none => none
  | some (d3, r7) =>
    if r7 = [] then some (natOfDigits d1, col, natOfDigits d2, natOfDigits d3)
    else none

/-- Match `^(\d+)\s+([RGB])\s+([+-]?\d+)\s+([+-]?\d+)$` case-insensitively
(the GRID paint line). -/
def matchGridLine (s : List Char) : Option (Nat × Color × Int × Int) :=
  match takeDigits s with
  | none => none
  | some (d1, r1) =>
  match matchWs1 r1 with
  | none => none
  | some r2 =>
  match r2 with
  | [] => none
  | ch :: r3 =>
  match rgbOfChar ch with
  | none => none
  | some col =>
  match matchWs1 r3 with
  | none => none
  | some r4 =>
  match takeSignedInt r4 with
  | none => none
  | some (dx, r5) =>
  match matchWs1 r5 with
  | none => none
  | some r6 =>
  match takeSignedInt r6 with
  | none => none
  | some (dy, r7) =>
    if r7 = [] then some (natOfDigits d1, col, dx, dy)
    else none

/-- Case-insensitive literal keyword matching (for `ruota` / `muovi`); the
pattern is given in uppercase. -/
def stripKeywordCI (pat : List Char) (s : List Char) : Option (List Char) :=
  match pat, s with
  | [], rest => some rest
  | _ :: _, [] => none
  | p :: ps, ch :: cs => if ch.toUpper = p then stripKeywordCI ps cs else none

/-- Match `^ruota\s+([123])$` case-insensitively, yielding the parsed unit
count times 90 degrees (`degrees`). -/
def matchRuotaLine (s : List Char) : Option Int :=
  match stripKeywordCI ['R', 'U', 'O', 'T', 'A'] s with
  | none => none
  | some r1 =>
  match matchWs1 r1 with
  | none => none
  | some r2 =>
  match r2 with
  | [d] =>
      if d = '1' ∨ d = '2' ∨ d = '3' then some ((digitVal d : Int) * 90)
      else none
  | _ => none

/-- Match `^muovi\s+(\d+)$` case-insensitively. -/
def matchMuoviLine (s : List Char) : Option Nat :=
  match stripKeywordCI ['M', 'U', 'O', 'V', 'I'] s with
  | none => none
  | some r1 =>
  match matchWs1 r1 with
  | none => none
  | some r2 =>
  match takeDigits r2 with
  | some (ds, []) => some (natOfDigits ds)
  | _ => none

/-- Match `^([+-])\s*([1-8]|[A-H])$` case-insensitively (the MATRIX line).
Returns (`operation` is `+`, `isRow`, 0-based `index`). -/
def matchMatrixLine (s : List Char) : Option (Bool × Bool × Nat) :=
  match s with
  | [] => none
  | op :: rest =>
      if op = '+' ∨ op = '-' then
        match rest.dropWhile isWsChar with
        | [t] =>
            if '1' ≤ t ∧ t ≤ '8' then
              some (op = '+', true, t.toNat - 49)
            else if 'A' ≤ t.toUpper ∧ t.toUpper ≤ 'H' then
              some (op = '+', false, t.toUpper.toNat - 65)
            else none
        | _ => none
      else none

/-- `parseLine` from the source: turn one raw line into zero or more
commands for the active mode (an empty/blank line yields no commands, which
the source signals by returning `null`). -/
def parseLine (line : List Char) (lineNumber : Nat) (mode : Mode) :
    Except Err (List Command) :=
  let trimmed := trimStr line
  if trimmed = [] then .ok []
  else if mode = .PIXEL then
    (parsePixelSequence trimmed lineNumber).map
      (fun cs => cs.map Command.PIXEL_CMD)
  else
    match matchStartLine trimmed with
    | some (rows, cols) => .ok [.START rows cols lineNumber]
    | none =>
        match mode with
        | .TABLE =>
            match matchColorLine trimmed with
            | some (count, col, row, colIdx) =>
                .ok [.COLOR count col row colIdx lineNumber]
            | none => .error (.syntaxInvalidFormat lineNumber)
        | .GRID =>
            match matchGridLine trimmed with
            | some (count, col, dx, dy) =>
                .ok [.GRID_COLOR count col dx dy lineNumber]
            | none => .error (.syntaxInvalidFormat lineNumber)
        | .MAZE =>
            match matchRuotaLine trimmed with
            | some deg => .ok [.RUOTA deg lineNumber]
            | none =>
                match matchMuoviLine trimmed with
                | some steps => .ok [.MUOVI steps lineNumber]
                | none => .error (.syntaxInvalidFormat lineNumber)
        | .MATRIX =>
            match matchMatrixLine trimmed with
            | some (plus, isRow, idx) =>
                .ok [.MATRIX plus isRow idx lineNumber]
            | none => .error (.syntaxInvalidFormat lineNumber)
        | .PIXEL => .error (.syntaxInvalidFormat lineNumber)

/-! ### Program loader (`loadProgram`) -/

/-- JS `code.split('\n')`. -/
def splitLinesAux (acc : List Char) : List Char → List (List Char)
  | [] => [acc.reverse]
  | ch :: rest =>
      if ch = '\n' then acc.reverse :: splitLinesAux [] rest
      else splitLinesAux (ch :: acc) rest

/-- Split source code into lines. -/
def splitLines (code : List Char) : List (List Char) :=
  splitLinesAux [] code

/-- The loader's per-command structural validation: reject a second `START`,
dimensions above 16x16, and (for TABLE/GRID) a paint command before `START`.
Returns the updated `startCmdFound` flag. -/
def validateCmds (mode : Mode) (i : Nat) :
    List Command → Bool → Except Err Bool
  | [], startFound => .ok startFound
  | cmd :: rest, startFound =>
      match cmd with
      | .START rows cols _ =>
          if startFound then .error (.multipleStart i)
          else if rows > MAX_ROWS ∨ cols > MAX_COLS then
            .error (.dimensionsExceedMax i)
          else validateCmds mode i rest true
      | .COLOR _ _ _ _ _ =>
          if ¬startFound ∧ (mode = .TABLE ∨ mode = .GRID) then
            .error (.colorBeforeStart i)
          else validateCmds mode i rest startFound
      | .GRID_COLOR _ _ _ _ _ =>
          if ¬startFound ∧ (mode = .TABLE ∨ mode = .GRID) then
            .error (.colorBeforeStart i)
          else validateCmds mode i rest startFound
      | _ => validateCmds mode i rest startFound

/-- The loader's main loop: parse every line in order, validating and
accumulating commands; the first error aborts the whole load. -/
def loadLoop (mode : Mode) : List (List Char) → Nat → Bool → Except Err (List Command)
  | [], _, _ => .ok []
  | line :: rest, i, startFound =>
      match parseLine line i mode with
      | .error e => .error e
      | .ok cmds =>
          match validateCmds mode i cmds startFound with
          | .error e => .error e
          | .ok startFound2 =>
              match loadLoop mode rest (i + 1) startFound2 with
              | .error e => .error e
              | .ok more => .ok (cmds ++ more)

mutual

/-- Flattening of one pixel command (the loader's `flatten` helper for PIXEL
mode): a `LOOP` becomes its (recursively flattened) body repeated `loopCount`
times; any other command is kept as-is. -/
def flattenPixelCmd : PixelCmd → List PixelCmd
  | .paint color ln => [.paint color ln]
  | .skip ln => [.skip ln]
  | .loop n body _ => List.flatten (List.replicate n (flattenPixelCmds body))

/-- Flattening of a list of pixel commands. -/
def flattenPixelCmds : List PixelCmd → List PixelCmd
  | [] => []
  | p :: rest => flattenPixelCmd p ++ flattenPixelCmds rest

end

/-- The loader's `flatten` applied to the whole command stream (only PIXEL
commands can contain loops; other command kinds are kept unchanged). -/
def flattenCommands : List Command → List Command
  | [] => []
  | .PIXEL_CMD p :: rest =>
      (flattenPixelCmd p).map Command.PIXEL_CMD ++ flattenCommands rest
  | cmd :: rest => cmd :: flattenCommands rest

/-- Parsing-and-validation phase of `loadProgram`: split into lines, parse
each, enforce the cross-line rules, and (for PIXEL) flatten loops. -/
def parseProgram (mode : Mode) (code : List Char) : Except Err (List Command) :=
  match loadLoop mode (splitLines code) 0 false with
  | .error e => .error e
  | .ok commands =>
      .ok (if mode = .PIXEL then flattenCommands commands else commands)

/-! ### Grid primitives -/

/-- Write one cell (`grid[r][c].color = v`; the source only executes this
under range checks, and `List.set` leaves the list unchanged out of range,
which the callers never rely on). -/
def set2d (g : Grid) (r c : Nat) (v : Cell) : Grid :=
  g.set r ((g.getD r []).set c v)

/-- Read one cell (`grid[r][c].color`, `null`/`none` when out of range,
matching the source's optional-chaining reads; in-range reads agree with JS
indexing). -/
def get2d (g : Grid) (r c : Nat) : Cell :=
  (g.getD r []).getD c none

/-- Paint `count` consecutive cells rightward from `(r, c)` (the source's
`for (let i = 0; i < count; i++) grid[row][col + i] = { color }`). -/
def paintRange (g : Grid) (r c : Nat) (count : Nat) (color : Color) : Grid :=
  (List.range count).foldl (fun acc i => set2d acc r (c + i) (some color)) g

/-- Set every cell of row `index` (`isRow`) or column `index` to `some W`
(`operation = '+'`) or `none` (the MATRIX toggle loop, identical in the
engine and in silent replay). -/
def applyMatrixToggle (g : Grid) (plus isRow : Bool) (index : Nat) : Grid :=
  let colorToSet : Cell := if plus then some .W else none
  if isRow then
    (List.range 8).foldl (fun acc c => set2d acc index c colorToSet) g
  else
    (List.range 8).foldl (fun acc r => set2d acc r index colorToSet) g

/-! ### Silent replay (`executeCommandsSilently`) -/

/-- Cursor state of `executePixelCommandsOnGrid`: the grid under mutation,
the cursor, and the line of the op most recently painted (`-1` initially so
the first op always row-syncs). -/
structure PxState where
  grid : Grid
  r : Nat
  c : Nat
  currentLine : Int
deriving DecidableEq

/-- The `paint` closure of `executePixelCommandsOnGrid`: on a line change the
cursor jumps to `(cmdLine, 0)`; the cell is written only when the cursor is
inside the 16x16 area; the column always advances. -/
def pxPaint (st : PxState) (color : Cell) (cmdLine : Nat) : PxState :=
  let st1 :=
    if (cmdLine : Int) ≠ st.currentLine then
      { st with r := cmdLine, c := 0, currentLine := (cmdLine : Int) }
    else st
  let grid2 :=
    if st1.r < 16 ∧ st1.c < 16 then set2d st1.grid st1.r st1.c color
    else st1.grid
  { st1 with grid := grid2, c := st1.c + 1 }

/-- Iterate a function `n` times (the `for (let i = 0; i < loopCount; i++)`
loop of `runCmds`). -/
def iterApp : Nat → (PxState → PxState) → PxState → PxState
  | 0, _, st => st
  | n + 1, f, st => iterApp n f (f st)

mutual

/-- `runCmds` of `executePixelCommandsOnGrid`, one pixel command: PAINT and
SKIP go through `pxPaint` (SKIP paints `null`); LOOP runs its body
`loopCount` times. -/
def runPixelCmd : PixelCmd → PxState → PxState
  | .paint color ln => fun st => pxPaint st color ln
  | .skip ln => fun st => pxPaint st none ln
  | .loop n body _ => fun st => iterApp n (runPixelCmds body) st

/-- `runCmds` over a list of pixel commands. -/
def runPixelCmds : List PixelCmd → PxState → PxState
  | [] => fun st => st
  | p :: rest => fun st => runPixelCmds rest (runPixelCmd p st)

end

/-- `runCmds` over the command stream: commands that are not pixel commands
are skipped (`cmd.type === 'PIXEL_CMD'` guard). -/
def runPixelCommandStream : List Command → PxState → PxState
  | [], st => st
  | .PIXEL_CMD p :: rest, st => runPixelCommandStream rest (runPixelCmd p st)
  | _ :: rest, st => runPixelCommandStream rest st

/-- `executePixelCommandsOnGrid` from the source. -/
def executePixelCommandsOnGrid (grid : Grid) (commands : List Command)
    (startPos : Nat × Nat) : PxState :=
  runPixelCommandStream commands ⟨grid, startPos.1, startPos.2, -1⟩

/-- One command of the silent-replay loop for the non-PIXEL, non-MAZE modes:
`START` re-creates the grid, `MATRIX` toggles (only when a grid exists),
`COLOR`/`GRID_COLOR` paint with the count clamped to the row (`Math.min`)
and out-of-range targets skipped rather than erroring. -/
def silentStepCmd (acc : Option Grid × (Int × Int)) (cmd : Command) :
    Option Grid × (Int × Int) :=
  match cmd with
  | .START rows cols _ => (some (createEmptyGrid rows cols), (-1, -1))
  | .MATRIX plus isRow idx _ =>
      match acc.1 with
      | some grid => (some (applyMatrixToggle grid plus isRow idx), acc.2)
      | none => acc
  | .COLOR count color row col _ =>
      match acc.1 with
      | none => acc
      | some grid =>
          let rows := grid.length
          let cols := (grid.getD 0 []).length
          if row ≥ rows ∨ col ≥ cols then acc
          else
            let cnt := min count (cols - col)
            (some (paintRange grid row col cnt color),
              ((row : Int), (col : Int) + (cnt : Int) - 1))
  | .GRID_COLOR count color dx dy _ =>
      match acc.1 with
      | none => acc
      | some grid =>
          let rows := grid.length
          let cols := (grid.getD 0 []).length
          let targetRow := acc.2.1 + dy
          let targetCol := acc.2.2 + dx
          if targetRow < 0 ∨ (rows : Int) ≤ targetRow ∨ targetCol < 0 ∨
              (cols : Int) ≤ targetCol then acc
          else
            let cnt := min count ((cols : Int) - targetCol).toNat
            (some (paintRange grid targetRow.toNat targetCol.toNat cnt color),
              (targetRow, targetCol + (cnt : Int) - 1))
  | _ => acc

/-- `executeCommandsSilently` from the source: `none` for MAZE; a fresh 8x8
(MATRIX) or 16x16 (PIXEL) grid otherwise; TABLE/GRID start with no grid until
a `START` command creates one. -/
def executeCommandsSilently (commands : List Command) (mode : Mode) :
    Option Grid :=
  if mode = .MAZE then none
  else if mode = .PIXEL then
    some (executePixelCommandsOnGrid (createEmptyGrid 16 16) commands (0, 0)).grid
  else if mode = .MATRIX then
    (commands.foldl silentStepCmd (some (createEmptyGrid 8 8), (-1, -1))).1
  else
    (commands.foldl silentStepCmd (none, (-1, -1))).1

/-! ### Engine state -/

/-- Maze wall flags of one cell. -/
structure MazeWallsCell where
  top : Bool
  right : Bool
  bottom : Bool
  left : Bool
deriving DecidableEq

/-- Collectible item kinds. -/
inductive ItemType where
  | leaf | carrot
deriving DecidableEq

/-- One collectible item. -/
structure MazeItem where
  r : Int
  c : Int
  type : ItemType
  collected : Bool
deriving DecidableEq

/-- The turtle: position and heading in degrees (0 East, 90 North, 180 West,
270 South). -/
structure TurtleState where
  r : Int
  c : Int
  dir : Int
deriving DecidableEq

/-- The `mazeState` aggregate of the store. -/
structure MazeState where
  walls : List (List MazeWallsCell)
  items : List MazeItem
  exitCell : Option (Nat × Nat)
  visited : List (Int × Int)
  turtle : TurtleState
deriving DecidableEq

/-- Completion status of a run. -/
inductive CompletionStatus where
  | idle | success | failure
deriving DecidableEq

/-- The store fields relevant to loader, engine and scorer (`ProgramState`
in the source; the challenge-timer and modal fields are not touched by any
of them and are omitted). -/
structure ProgramState where
  mode : Mode
  sourceCode : List Char
  commands : List Command
  targetGrid : Option Grid
  currentGrid : Option Grid
  mazeState : Option MazeState
  mazeScore : Nat
  pc : Nat
  isRunning : Bool
  error : Option Err
  completionStatus : CompletionStatus
  lastPos : Int × Int
  totalMovements : Nat
deriving DecidableEq

/-- `loadProgram` from the source.  On any parse/validation error only the
`error` field changes (the `catch` branch); on success the command stream,
program counter and mode-specific grids are (re)initialized, and with
`updateTarget` the target grid is derived by silent replay. -/
def loadProgram (st : ProgramState) (code : List Char) (updateTarget : Bool) :
    ProgramState :=
  match parseProgram st.mode code with
  | .error e => { st with error := some e }
  | .ok commands =>
      let base : ProgramState := { st with
        sourceCode := code, commands := commands, error := none, pc := 0,
        completionStatus := .idle, lastPos := (-1, -1), totalMovements := 0 }
      let base2 : ProgramState :=
        match st.mode with
        | .MAZE => base
        | .MATRIX => { base with currentGrid := some (createEmptyGrid 8 8) }
        | .PIXEL => { base with currentGrid := some (createEmptyGrid 16 16),
                                lastPos := (0, 0) }
        | _ => { base with currentGrid := none }
      if updateTarget then
        match executeCommandsSilently commands st.mode with
        | some g => { base2 with targetGrid := some g }
        | none => base2
      else base2

/-! ### Execution engine (`step`) -/

/-- The local variables of `step` that commands mutate (`nextMazeState`,
`nextMazeScore`, `nextGrid`, `nextLastPos`, `nextTotalMovements`). -/
structure EngineVars where
  maze : Option MazeState
  mazeScore : Nat
  grid : Option Grid
  lastPos : Int × Int
  totalMovements : Nat
deriving DecidableEq

/-- Walls of the cell at `(r, c)`; the source indexes `walls[r][c]` only at
positions already known to be inside the 16x16 area, so the default is
unreachable in guarded uses. -/
def wallsAt (walls : List (List MazeWallsCell)) (r c : Int) : MazeWallsCell :=
  (walls.getD r.toNat []).getD c.toNat ⟨false, false, false, false⟩

/-- Single-cell displacement for a heading (0 East, 90 North, 180 West,
270 South; any other heading moves nowhere, as in the source's if-chain). -/
def muoviDelta (dir : Int) (r c : Int) : Int × Int :=
  if dir = 90 then (r - 1, c)
  else if dir = 270 then (r + 1, c)
  else if dir = 0 then (r, c + 1)
  else if dir = 180 then (r, c - 1)
  else (r, c)

/-- The wall-collision test of `step`: the flag on the edge of the *current*
cell crossed by a move in direction `dir`. -/
def wallBlocked (cw : MazeWallsCell) (dir : Int) : Bool :=
  (decide (dir = 90) && cw.top) || (decide (dir = 270) && cw.bottom) ||
  (decide (dir = 0) && cw.right) || (decide (dir = 180) && cw.left)

/-- `findIndex` + collect of the item at `(r, c)`: mark the first matching
uncollected item collected and return its value (leaf 1, carrot 2);
`none` when there is no such item. -/
def collectItemAt : List MazeItem → Int → Int → Option (List MazeItem × Nat)
  | [], _, _ => none
  | it :: rest, r, c =>
      if it.r = r ∧ it.c = c ∧ !it.collected then
        some ({ it with collected := true } :: rest,
          if it.type = .leaf then 1 else 2)
      else
        (collectItemAt rest r c).map (fun p => (it :: p.1, p.2))

/-- Record a newly entered cell in the visited list if not already there. -/
def addVisited (visited : List (Int × Int)) (r c : Int) : List (Int × Int) :=
  if visited.any (fun v => v.1 = r ∧ v.2 = c) then visited
  else visited ++ [(r, c)]

/-- Result of a completed `muovi` advance loop. -/
structure MuoviResult where
  r : Int
  c : Int
  score : Nat
  items : List MazeItem
  visited : List (Int × Int)
deriving DecidableEq

/-- The advance loop of `MUOVI`: one cell per iteration; out of the 16x16
area throws the wall-or-bounds error, a wall flag on the crossed edge of the
current cell throws the collision error; otherwise the turtle enters the next
cell, which is visited and whose item (if any) is collected. -/
def muoviLoop (walls : List (List MazeWallsCell)) (dir : Int) :
    Nat → Int → Int → Nat → List MazeItem → List (Int × Int) →
    Except Err MuoviResult
  | 0, r, c, score, items, visited => .ok ⟨r, c, score, items, visited⟩
  | s + 1, r, c, score, items, visited =>
      let next := muoviDelta dir r c
      if next.1 < 0 ∨ 16 ≤ next.1 ∨ next.2 < 0 ∨ 16 ≤ next.2 then
        .error .mazeWallOrOutOfBounds
      else if wallBlocked (wallsAt walls r c) dir then
        .error .mazeWallCollision
      else
        let visited2 := addVisited visited next.1 next.2
        match collectItemAt items next.1 next.2 with
        | some p =>
            muoviLoop walls dir s next.1 next.2 (score + p.2) p.1 visited2
        | none =>
            muoviLoop walls dir s next.1 next.2 score items visited2

/-- The MAZE branch of `step`'s command dispatch.  A thrown error leaves every
local unchanged: the turtle, items, visited set and score are only written
back after the whole advance loop succeeds. -/
def execCmdMaze (es : EngineVars) (cmd : Command) : EngineVars × Option Err :=
  match cmd with
  | .START _ _ _ => (es, none)
  | .RUOTA deg _ =>
      match es.maze with
      | none => (es, some .mazeNotInit)
      | some ms =>
          let norm := Int.tmod (Int.tmod ms.turtle.dir 360 + 360) 360
          let newDir :=
            if deg = 90 then Int.tmod (norm + 90) 360
            else if deg = -90 ∨ deg = 270 then Int.tmod (norm - 90 + 360) 360
            else if deg = 180 then Int.tmod (norm + 180) 360
            else ms.turtle.dir
          let turtle2 := { ms.turtle with dir := newDir }
          let ms2 := { ms with turtle := turtle2 }
          ({ es with maze := some ms2 }, none)
  | .MUOVI steps _ =>
      match es.maze with
      | none => (es, some .mazeNotInit)
      | some ms =>
          match muoviLoop ms.walls ms.turtle.dir steps ms.turtle.r ms.turtle.c
              es.mazeScore ms.items ms.visited with
          | .error e => (es, some e)
          | .ok res =>
              let turtle2 := { ms.turtle with r := res.r, c := res.c }
              let ms2 := { ms with items := res.items, visited := res.visited,
                                   turtle := turtle2 }
              ({ es with maze := some ms2, mazeScore := res.score }, none)
  | _ => (es, some .unsupportedInMode)

/-- The MATRIX branch of `step`'s command dispatch. -/
def execCmdMatrix (es : EngineVars) (cmd : Command) : EngineVars × Option Err :=
  match cmd with
  | .START _ _ _ => (es, none)
  | .MATRIX plus isRow idx _ =>
      match es.grid with
      | none => (es, some .gridNotInit)
      | some grid =>
          ({ es with grid := some (applyMatrixToggle grid plus isRow idx) },
            none)
  | _ => (es, some .unsupportedInMode)

/-- The PIXEL branch of `step`'s command dispatch: paint/clear at the cursor
when it lies inside the 16x16 area, then advance the column; at column 16 the
cursor wraps to column 0 of the next row. -/
def execCmdPixel (es : EngineVars) (cmd : Command) : EngineVars × Option Err :=
  match es.grid with
  | none => (es, some .gridNotInit)
  | some grid =>
      match cmd with
      | .PIXEL_CMD p =>
          let r := es.lastPos.1
          let c := es.lastPos.2
          let grid2 :=
            match p with
            | .paint color _ =>
                if r < 16 ∧ c < 16 then set2d grid r.toNat c.toNat color
                else grid
            | .skip _ =>
                if r < 16 ∧ c < 16 then set2d grid r.toNat c.toNat none
                else grid
            | .loop _ _ _ => grid
          let c2 := c + 1
          let lastPos2 : Int × Int := if 16 ≤ c2 then (r + 1, 0) else (r, c2)
          ({ es with grid := some grid2, lastPos := lastPos2 }, none)
      | _ => (es, some .invalidPixelCommand)

/-- The shared paint step of the TABLE/GRID branch: bounds checks (throwing
with the already-updated movement counter), then the paint loop and the
last-position update. -/
def paintStep (es : EngineVars) (grid : Grid) (targetRow targetCol : Int)
    (count : Nat) (color : Color) (ln : Nat) (tm2 : Nat) :
    EngineVars × Option Err :=
  let rows := grid.length
  let cols := (grid.getD 0 []).length
  if targetRow < 0 ∨ (rows : Int) ≤ targetRow ∨ targetCol < 0 ∨
      (cols : Int) ≤ targetCol then
    ({ es with totalMovements := tm2 }, some (.runtimeOutOfBounds ln))
  else if (cols : Int) < targetCol + (count : Int) then
    ({ es with totalMovements := tm2 }, some (.runtimeExceedsColumns ln))
  else
    ({ es with
        grid := some (paintRange grid targetRow.toNat targetCol.toNat count color),
        lastPos := (targetRow, targetCol + (count : Int) - 1),
        totalMovements := tm2 }, none)

/-- The TABLE/GRID branch of `step`'s command dispatch.  `GRID_COLOR` adds
`|dx| + |dy| + max(count-1, 0)` to the movement counter *before* the bounds
checks, so a failing command still commits the increment; command kinds not
handled by the if-chain are no-ops. -/
def execCmdTableGrid (es : EngineVars) (cmd : Command) :
    EngineVars × Option Err :=
  match cmd with
  | .START rows cols _ =>
      let es2 := { es with grid := some (createEmptyGrid rows cols),
                           lastPos := ((-1 : Int), (-1 : Int)),
                           totalMovements := 0 }
      (es2, none)
  | .COLOR count color row col ln =>
      match es.grid with
      | none => (es, some .gridNotInit)
      | some grid =>
          paintStep es grid (row : Int) (col : Int) count color ln
            es.totalMovements
  | .GRID_COLOR count color dx dy ln =>
      match es.grid with
      | none => (es, some .gridNotInit)
      | some grid =>
          let targetRow := es.lastPos.1 + dy
          let targetCol := es.lastPos.2 + dx
          let tm2 := es.totalMovements + dx.natAbs + dy.natAbs +
            (if count > 0 then count - 1 else 0)
          paintStep es grid targetRow targetCol count color ln tm2
  | _ => (es, none)

/-- Per-command dispatch of `step` on the active mode. -/
def execCmd (mode : Mode) (es : EngineVars) (cmd : Command) :
    EngineVars × Option Err :=
  match mode with
  | .MAZE => execCmdMaze es cmd
  | .MATRIX => execCmdMatrix es cmd
  | .PIXEL => execCmdPixel es cmd
  | _ => execCmdTableGrid es cmd

/-- The batch loop of `step`: execute commands from the current position
while they share `startLine`; stop at the first error.  Returns the final
locals, the error (if any) and how many commands were completed (the program
counter advance). -/
def runBatch (mode : Mode) (startLine : Nat) :
    List Command → EngineVars → EngineVars × Option Err × Nat
  | [], es => (es, none, 0)
  | cmd :: rest, es =>
      if cmd.lineNumber = startLine then
        match execCmd mode es cmd with
        | (es2, some e) => (es2, some e, 0)
        | (es2, none) =>
            match runBatch mode startLine rest es2 with
            | (es3, err, k) => (es3, err, k + 1)
      else (es, none, 0)

/-- `step` from the source: process the whole batch of commands sharing the
next source line; in PIXEL mode the cursor is first forced to
`(startLine, 0)`.  The final store update commits the locals as mutated up
to any error, records the error and sets the completion status. -/
def step (st : ProgramState) : ProgramState :=
  if !st.isRunning || st.commands.length ≤ st.pc then
    { st with isRunning := false }
  else
    let startLine := (st.commands.getD st.pc (.START 0 0 0)).lineNumber
    let es0 : EngineVars :=
      { maze := st.mazeState, mazeScore := st.mazeScore,
        grid := st.currentGrid,
        lastPos := if st.mode = .PIXEL then ((startLine : Int), 0) else st.lastPos,
        totalMovements := st.totalMovements }
    match runBatch st.mode startLine (st.commands.drop st.pc) es0 with
    | (es, err, consumed) =>
        let nextPc := st.pc + consumed
        { st with
          mazeState := es.maze, mazeScore := es.mazeScore,
          currentGrid := es.grid, lastPos := es.lastPos,
          totalMovements := es.totalMovements, pc := nextPc,
          isRunning := err.isNone && st.isRunning &&
            decide (nextPc < st.commands.length),
          error := err,
          completionStatus := if err.isSome then .failure else .idle }

/-! ### Scorer (`calculateScore`) -/

/-- Per-cell MATRIX score: +0.25 for a correctly lit cell, -0.25 for a
wrongly lit cell, 0 otherwise. -/
def matrixCellScore (tgt cur : Grid) (r c : Nat) : ℚ :=
  let isTargetOn := (get2d tgt r c).isSome
  let isCurrentOn := (get2d cur r c).isSome
  if isTargetOn && isCurrentOn then 1/4
  else if !isTargetOn && isCurrentOn then -(1/4)
  else 0

/-- The 8x8 MATRIX score sum. -/
def matrixScore (tgt cur : Grid) : ℚ :=
  ((List.range 8).map (fun r =>
    ((List.range 8).map (fun c => matrixCellScore tgt cur r c)).sum)).sum

/-- The 16x16 PIXEL matching-cell count. -/
def pxOKCount (tgt cur : Grid) : Nat :=
  ((List.range 16).map (fun r =>
    ((List.range 16).filter (fun c =>
      decide (get2d cur r c = get2d tgt r c))).length)).sum

/-- `calculateScore` from the current source: MAZE returns the accumulated
maze score; with both grids present MATRIX and PIXEL use their formulas;
every other case (including TABLE and GRID) falls through to `return 0`. -/
def calculateScore (st : ProgramState) : ℚ :=
  if st.mode = .MAZE then (st.mazeScore : ℚ)
  else
    match st.currentGrid, st.targetGrid with
    | some cur, some tgt =>
        if st.mode = .MATRIX then max 0 (matrixScore tgt cur)
        else if st.mode = .PIXEL then ((pxOKCount tgt cur * 5) / 32 : Nat) / 4
        else 0
    | _, _ => 0

/-- Does a target row contain at least one colored cell
(`row.some(cell => cell.color !== null)`)? -/
def rowIsNonEmpty (row : List Cell) : Bool :=
  row.any (fun cell => cell.isSome)

/-- The TABLE/GRID row-count scorer of the repository's earlier interpreter
(`src/unnamed/part_006`, `calculateScore`): count target rows that contain a
colored cell and whose cells all equal the corresponding current-grid cells
over the target's column count. -/
def calculateScoreRowCount (tgt cur : Grid) : Nat :=
  ((List.range tgt.length).filter (fun r =>
    rowIsNonEmpty (tgt.getD r []) &&
    (List.range (tgt.getD 0 []).length).all (fun c =>
      decide (get2d tgt r c = get2d cur r c)))).length

/-! ### Target generators (`targetGenerator.ts`), parameterized by the
random draws -/

/-- One random draw of `generateMatrixTarget`'s inner loop: toggle a row or
column (`isRow`, `index` drawn from 0-7) on (`plus`) or off. -/
structure MatrixDraw where
  isRow : Bool
  index : Nat
  plus : Bool
deriving DecidableEq

/-- The command text emitted for one draw: `"+ 3"`, `"- A"`, ... (rows print
as `index + 1`, columns as the letter at char code `65 + index`). -/
def matrixDrawLine (d : MatrixDraw) : List Char :=
  [(if d.plus then '+' else '-'), ' ',
   (if d.isRow then Char.ofNat (49 + d.index) else Char.ofNat (65 + d.index))]

/-- One iteration of `generateMatrixTarget`'s rejection loop for a given
list of draws: the grid the draws paint (starting from an empty 8x8) and the
emitted source code (lines joined with a newline).  The rejection loop only
re-runs this with fresh draws until the grid has exactly 40 lit cells, so
every emitted pair is of this shape. -/
def generateMatrixAttempt (draws : List MatrixDraw) : Grid × List Char :=
  (draws.foldl (fun g d => applyMatrixToggle g d.plus d.isRow d.index)
      (createEmptyGrid 8 8),
    List.intercalate ['\n'] (draws.map matrixDrawLine))

/-- The `getColor` helper local to `generatePixelTarget` (same logic as the
parser's `getMixedColor` but written separately in the source; note it knows
only the letters R, G, B — the strings `"C"`, `"M"`, `"Y"` fall through to
`null`). -/
def genGetColor (s : List Char) : Option Color :=
  let up := s.map Char.toUpper
  if up.contains 'R' && up.contains 'G' && up.contains 'B' then some .W
  else if up.contains 'R' && up.contains 'G' then some .Y
  else if up.contains 'G' && up.contains 'B' then some .C
  else if up.contains 'R' && up.contains 'B' then some .M
  else if up.contains 'R' then some .R
  else if up.contains 'G' then some .G
  else if up.contains 'B' then some .B
  else none

/-- The random draws for one row of `generatePixelTarget`: one of the four
pattern templates with the color strings drawn for it. -/
inductive PixelRowDraw where
  | fullRow (cStr : List Char)
  | alternating (c1Str c2Str : List Char)
  | chunks (c1Str c2Str c3Str c4Str : List Char)
  | split (c1Str c2Str : List Char)
deriving DecidableEq

/-- The cells and the emitted code line for one row draw, following the four
branches of `generatePixelTarget`. -/
def pixelRowOf (d : PixelRowDraw) : List Cell × List Char :=
  match d with
  | .fullRow cStr =>
      (List.replicate 16 (genGetColor cStr),
        "16 * ( ".data ++ cStr ++ " )".data)
  | .alternating c1Str c2Str =>
      let c1 := genGetColor c1Str
      let c2 := if c2Str = ['O'] then none else genGetColor c2Str
      let c2Cmd := if c2Str = ['O'] then "Off".data else c2Str
      (List.flatten (List.replicate 8 [c1, c2]),
        "8 * ( ".data ++ c1Str ++ " + ".data ++ c2Cmd ++ " )".data)
  | .chunks c1Str c2Str c3Str c4Str =>
      let cell := fun (s : List Char) =>
        if s = ['O'] then none else genGetColor s
      let token := fun (s : List Char) => if s = ['O'] then "Off".data else s
      (List.flatten (List.replicate 4
          [cell c1Str, cell c2Str, cell c3Str, cell c4Str]),
        "4 * ( ".data ++ token c1Str ++ " + ".data ++ token c2Str ++
          " + ".data ++ token c3Str ++ " + ".data ++ token c4Str ++ " )".data)
  | .split c1Str c2Str =>
      (List.replicate 8 (genGetColor c1Str) ++
          List.replicate 8 (genGetColor c2Str),
        "8 * ( ".data ++ c1Str ++ " ) + 8 * ( ".data ++ c2Str ++ " )".data)

/-- `generatePixelTarget` for a given list of row draws (the source draws one
pattern per row for 16 rows): the grid assembled row by row and the code
lines joined with a newline. -/
def generatePixelAttempt (draws : List PixelRowDraw) : Grid × List Char :=
  (draws.map (fun d => (pixelRowOf d).1),
    List.intercalate ['\n'] (draws.map (fun d => (pixelRowOf d).2)))

/-! ### Concrete fixtures -/

/-- The store's initial state (the timer/challenge fields the engine never
reads are omitted). -/
def initialState (mode : Mode) : ProgramState :=
  { mode := mode, sourceCode := [], commands := [], targetGrid := none,
    currentGrid := none, mazeState := none, mazeScore := 0, pc := 0,
    isRunning := false, error := none, completionStatus := .idle,
    lastPos := (-1, -1), totalMovements := 0 }

/-- Serpentine maze, open-edge predicates: every row fully connected, rows
linked alternately at column 15 (even rows to the row below) and column 0
(odd rows), one exit on the left edge of cell (8, 0).  This wall grid is a
perfect maze of the shape `generateMaze` produces (a spanning tree with one
boundary opening at an edge midpoint). -/
def serpOpenTop (r c : Nat) : Bool :=
  decide (0 < r) &&
    ((decide ((r - 1) % 2 = 0) && decide (c = 15)) ||
     (decide ((r - 1) % 2 = 1) && decide (c = 0)))

/-- Bottom edge of `(r, c)` is open. -/
def serpOpenBottom (r c : Nat) : Bool :=
  decide (r < 15) &&
    ((decide (r % 2 = 0) && decide (c = 15)) ||
     (decide (r % 2 = 1) && decide (c = 0)))

/-- Left edge of `(r, c)` is open (the exit is the left edge of (8, 0)). -/
def serpOpenLeft (r c : Nat) : Bool :=
  decide (0 < c) || (decide (r = 8) && decide (c = 0))

/-- Right edge of `(r, c)` is open. -/
def serpOpenRight (_r c : Nat) : Bool :=
  decide (c < 15)

/-- The serpentine maze wall grid. -/
def serpWalls : List (List MazeWallsCell) :=
  (List.range 16).map fun r => (List.range 16).map fun c =>
    { top := !serpOpenTop r c, right := !serpOpenRight r c,
      bottom := !serpOpenBottom r c, left := !serpOpenLeft r c }

/-- Items of the concrete maze session: four leaves and two carrots placed
away from row 8 (as `generateMaze` places six items outside the start and
exit cells). -/
def serpItems : List MazeItem :=
  [⟨0, 0, .leaf, false⟩, ⟨0, 1, .leaf, false⟩, ⟨0, 2, .leaf, false⟩,
   ⟨0, 3, .leaf, false⟩, ⟨1, 0, .carrot, false⟩, ⟨1, 1, .carrot, false⟩]

/-- The maze session right after reset: turtle at the center (8, 8) facing
East, only the start cell visited. -/
def serpMazeState : MazeState :=
  { walls := serpWalls, items := serpItems, exitCell := some (8, 0),
    visited := [(8, 8)], turtle := ⟨8, 8, 0⟩ }

/-- Position after `k` single-cell advances in direction `dir` from
`(r, c)`. -/
def muoviIter (dir : Int) (r c : Int) : Nat → Int × Int
  | 0 => (r, c)
  | k + 1 => muoviDelta dir (muoviIter dir r c k).1 (muoviIter dir r c k).2

/-- A position lies inside the 16x16 maze area. -/
def inMazeBounds (p : Int × Int) : Prop :=
  0 ≤ p.1 ∧ p.1 < 16 ∧ 0 ≤ p.2 ∧ p.2 < 16

instance (p : Int × Int) : Decidable (inMazeBounds p) := by
  unfold inMazeBounds
  infer_instance

/-- MAZE session for the boundary claim: the loaded program turns the turtle
around and walks it through the exit at (8, 0) and across the left border. -/
def c1State : ProgramState :=
  let st := loadProgram (initialState .MAZE) ("ruota 2\nmuovi 9".data) false
  { st with isRunning := true, mazeState := some serpMazeState,
            currentGrid := some (createEmptyGrid 16 16) }

/-- TABLE session whose 1x1 target row is colored and matched exactly by the
current grid. -/
def c2State : ProgramState :=
  { initialState .TABLE with currentGrid := some [[some Color.R]],
                              targetGrid := some [[some Color.R]] }

/-- PIXEL session with one source line of 17 flattened paint operations. -/
def c3State : ProgramState :=
  { loadProgram (initialState .PIXEL) ("17 * ( R )".data) false with
      isRunning := true }

/-- PIXEL generator draws that pick the 8+8 split template (primary `R`,
secondary `C`) for every row. -/
def c4Draws : List PixelRowDraw :=
  List.replicate 16 (.split "R".data "C".data)

/-- PIXEL session loaded from the loop line `16 * ( R )`. -/
def c5LoopState : ProgramState :=
  { loadProgram (initialState .PIXEL) ("16 * ( R )".data) false with
      isRunning := true }

/-- A line of 16 literal `R` paint operations. -/
def c5LiteralCommands : List Command :=
  List.replicate 16 (.PIXEL_CMD (.paint (some Color.R) 0))

/-- PIXEL session holding the 16 literal paints directly. -/
def c5LiteralState : ProgramState :=
  { initialState .PIXEL with commands := c5LiteralCommands,
                              currentGrid := some (createEmptyGrid 16 16),
                              lastPos := (0, 0), isRunning := true }

/-- Engine locals with a fresh 5x5 grid (the TABLE example instance). -/
def c6ExampleVars : EngineVars :=
  { maze := none, mazeScore := 0, grid := some (createEmptyGrid 5 5),
    lastPos := (-1, -1), totalMovements := 0 }

/-- Engine locals for the GRID movement-count example. -/
def c7ExampleVars : EngineVars :=
  { maze := none, mazeScore := 0, grid := some (createEmptyGrid 5 5),
    lastPos := (0, 0), totalMovements := 7 }

/-- Maze session facing the walled top edge of the start cell. -/
def c8MazeState : MazeState :=
  { serpMazeState with turtle := ⟨8, 8, 90⟩ }

/-- MAZE session about to walk into a wall. -/
def c8State : ProgramState :=
  { initialState .MAZE with commands := [.MUOVI 1 0], isRunning := true,
                             mazeState := some c8MazeState }

/-- A previously loaded TABLE session (used to check that a failing reload
leaves it untouched). -/
def c9PriorState : ProgramState :=
  { initialState .TABLE with commands := [.COLOR 1 .R 0 0 0], pc := 1,
                              currentGrid := some (createEmptyGrid 2 2),
                              targetGrid := some (createEmptyGrid 2 2) }

/-- MAZE session whose only command is a dimension declaration. -/
def c10State : ProgramState :=
  { initialState .MAZE with commands := [.START 5 5 0], isRunning := true,
                             mazeState := some serpMazeState }

/-! ## Helper lemmas about the grid primitives -/

theorem getD_set_self {α : Type} (l : List α) (n : Nat) (a d : α)
    (h : n < l.length) : (l.set n a).getD n d = a := by
  simp [List.getD, List.getElem?_set, h]

theorem getD_set_ne {α : Type} (l : List α) (n m : Nat) (a d : α)
    (h : n ≠ m) : (l.set n a).getD m d = l.getD m d := by
  simp [List.getD, List.getElem?_set, h]

theorem set2d_length (g : Grid) (r c : Nat) (v : Cell) :
    (set2d g r c v).length = g.length := by
  simp [set2d]

theorem set2d_rowlen (g : Grid) (r c : Nat) (v : Cell) (r' : Nat) :
    ((set2d g r c v).getD r' []).length = (g.getD r' []).length := by
  unfold set2d
  by_cases h1 : r = r'
  · subst h1
    by_cases hr : r < g.length
    · rw [getD_set_self _ _ _ _ hr]; simp
    · rw [List.set_eq_of_length_le (by omega)]
  · rw [getD_set_ne _ _ _ _ _ h1]

theorem get2d_set2d_self (g : Grid) (r c : Nat) (v : Cell)
    (hr : r < g.length) (hc : c < (g.getD r []).length) :
    get2d (set2d g r c v) r c = v := by
  unfold get2d set2d
  rw [getD_set_self _ _ _ _ hr, getD_set_self _ _ _ _ hc]

theorem get2d_set2d_ne (g : Grid) (r c : Nat) (v : Cell) (r' c' : Nat)
    (h : ¬(r' = r ∧ c' = c)) :
    get2d (set2d g r c v) r' c' = get2d g r' c' := by
  unfold get2d set2d
  by_cases h1 : r = r'
  · subst h1
    have h2 : c ≠ c' := fun hcc => h ⟨rfl, hcc.symm⟩
    by_cases hr : r < g.length
    · rw [getD_set_self _ _ _ _ hr, getD_set_ne _ _ _ _ _ h2]
    · rw [List.set_eq_of_length_le (by omega)]
  · rw [getD_set_ne _ _ _ _ _ h1]

theorem paintRange_succ (g : Grid) (r c n : Nat) (color : Color) :
    paintRange g r c (n + 1) color =
      set2d (paintRange g r c n color) r (c + n) (some color) := by
  unfold paintRange
  rw [List.range_succ, List.foldl_append]
  rfl

theorem paintRange_length (g : Grid) (r c n : Nat) (color : Color) :
    (paintRange g r c n color).length = g.length := by
  induction n with
  | zero => rfl
  | succ n ih => rw [paintRange_succ, set2d_length, ih]

theorem paintRange_rowlen (g : Grid) (r c n : Nat) (color : Color) (r' : Nat) :
    ((paintRange g r c n color).getD r' []).length = (g.getD r' []).length := by
  induction n with
  | zero => rfl
  | succ n ih => rw [paintRange_succ, set2d_rowlen, ih]

theorem get2d_paintRange (g : Grid) (r c n : Nat) (color : Color)
    (hr : r < g.length) (hcn : c + n ≤ (g.getD r []).length) (r' c' : Nat) :
    get2d (paintRange g r c n color) r' c' =
      if r' = r ∧ c ≤ c' ∧ c' < c + n then some color
      else get2d g r' c' := by
  induction n with
  | zero =>
      have : ¬(r' = r ∧ c ≤ c' ∧ c' < c + 0) := by omega
      rw [if_neg this]
      rfl
  | succ n ih =>
      rw [paintRange_succ]
      by_cases he : r' = r ∧ c' = c + n
      · obtain ⟨he1, he2⟩ := he
        subst he1; subst he2
        rw [get2d_set2d_self _ _ _ _
          (by rw [paintRange_length]; exact hr)
          (by rw [paintRange_rowlen]; omega)]
        rw [if_pos (by omega)]
      · rw [get2d_set2d_ne _ _ _ _ _ _ he, ih (by omega)]
        by_cases h1 : r' = r
        · subst h1
          by_cases h2 : c ≤ c' ∧ c' < c + n
          · rw [if_pos (by omega), if_pos (by omega)]
          · have hne : ¬(c' = c + n) := fun hcc => he ⟨rfl, hcc⟩
            rw [if_neg (by omega), if_neg (by omega)]
        · rw [if_neg (by simp [h1]), if_neg (by simp [h1])]

/-! ## The claims -/

/-- C1: the claim says that in MAZE mode a `muovi` advance past the outer
16x16 boundary is treated as a success condition.  The code contradicts it:
the bounds check in `step` throws the wall-or-bounds runtime error before
the wall flags are even consulted, so walking through the carved exit of the
maze (here: turning around and leaving through the open left edge of cell
(8, 0)) halts the run with an error and completion status `failure`, never
`success`. -/
theorem c1_maze_boundary_error_not_success :
    (step (step c1State)).error = some Err.mazeWallOrOutOfBounds ∧
    (step (step c1State)).completionStatus = CompletionStatus.failure ∧
    (step (step c1State)).completionStatus ≠ CompletionStatus.success ∧
    (step (step c1State)).isRunning = false := by
  decide

/-- C2: the claim says `calculateScore` counts the matching non-empty target
rows in TABLE/GRID mode.  The current `calculateScore` has no TABLE/GRID
branch at all and falls through to `return 0`: on a session whose single
colored target row matches the current grid exactly it returns 0, while the
row-count formula of the claim (implemented verbatim by the repository's
earlier interpreter, embedded as `calculateScoreRowCount`) yields 1. -/
theorem c2_tablegrid_score_always_zero :
    calculateScore c2State = 0 ∧
    calculateScoreRowCount [[some Color.R]] [[some Color.R]] = 1 := by
  constructor
  · rfl
  · decide

/-- C3: the claim says PIXEL operations beyond column 15 of a source line
have no effect in interactive stepping.  The code contradicts it: `step`
wraps the cursor to column 0 of the *next* row when the column reaches 16,
so the 17th operation of line 0 paints cell (1, 0) — a cell outside row 0 —
while the silent replay of the same program leaves (1, 0) unlit. -/
theorem c3_pixel_overflow_paints_next_row :
    get2d ((c3State.currentGrid).getD []) 1 0 = none ∧
    (step c3State).error = none ∧
    get2d (((step c3State).currentGrid).getD []) 1 0 = some Color.R ∧
    (executeCommandsSilently c3State.commands Mode.PIXEL).map
      (fun g => get2d g 1 0) = some none := by
  decide

/-- C4: the claim says parsing and silently replaying the code emitted by
the MATRIX/PIXEL target generators reproduces the generator's grid exactly.
The PIXEL generator's 8+8 split template contradicts it: it emits
`8 * ( R ) + 8 * ( C )`, whose `C` token the PIXEL grammar rejects as an
unknown command (so the emitted code cannot be replayed at all), and the
generator's own `getColor` maps `"C"` to `null`, leaving the right half of
the generated row unlit while the emitted code names a color. -/
theorem c4_pixel_split_template_breaks_roundtrip :
    parseProgram Mode.PIXEL (generatePixelAttempt c4Draws).2 =
      .error (.syntaxUnknownCommand 0 ['C']) ∧
    get2d (generatePixelAttempt c4Draws).1 0 8 = none ∧
    (loadProgram (initialState .PIXEL) (generatePixelAttempt c4Draws).2
        false).error =
      some (.syntaxUnknownCommand 0 ['C']) := by
  decide

set_option maxHeartbeats 1000000 in
/-- C5: loading flattens a PIXEL loop `N * ( body )` into the body's
flattened command list repeated `N` times; in particular the loaded program
for the line `16 * ( R )` is exactly the 16 literal `R` paint operations,
and stepping it produces the same grid as stepping those 16 literal paints:
row 0 fully `R`, all other rows unlit. -/
theorem c5_pixel_loop_flattening :
    (∀ (n : Nat) (body : List PixelCmd) (ln : Nat),
      flattenPixelCmd (.loop n body ln) =
        List.flatten (List.replicate n (flattenPixelCmds body))) ∧
    parseProgram Mode.PIXEL ("16 * ( R )".data) = .ok c5LiteralCommands ∧
    (step c5LoopState).currentGrid = (step c5LiteralState).currentGrid ∧
    (step c5LoopState).currentGrid =
      some (List.replicate 16 (some Color.R) ::
        List.replicate 15 (List.replicate 16 (none : Cell))) := by
  have h1 : ∀ (n : Nat) (body : List PixelCmd) (ln : Nat),
      flattenPixelCmd (.loop n body ln) =
        List.flatten (List.replicate n (flattenPixelCmds body)) :=
    fun n body ln => by rw [flattenPixelCmd]
  have h2 : parseProgram Mode.PIXEL ("16 * ( R )".data) =
      .ok c5LiteralCommands := by decide
  have h3 : (step c5LoopState).currentGrid =
      some (List.replicate 16 (some Color.R) ::
        List.replicate 15 (List.replicate 16 (none : Cell))) := by decide
  have h4 : (step c5LiteralState).currentGrid =
      some (List.replicate 16 (some Color.R) ::
        List.replicate 15 (List.replicate 16 (none : Cell))) := by decide
  exact ⟨h1, h2, h3.trans h4.symm, h3⟩

/-- C7: executing a `GridColor{count, color, dx, dy}` command on an
initialized grid increases `totalMovements` by exactly
`|dx| + |dy| + max(count - 1, 0)` (the truncated subtraction `count - 1` on
`Nat` is exactly `max(count - 1, 0)`) — the increment happens before the
bounds checks, so it holds whether or not the command then fails. -/
theorem c7_grid_color_total_movements (es : EngineVars) (grid : Grid)
    (count : Nat) (color : Color) (dx dy : Int) (ln : Nat)
    (h : es.grid = some grid) :
    (execCmdTableGrid es
        (.GRID_COLOR count color dx dy ln)).1.totalMovements =
      es.totalMovements + dx.natAbs + dy.natAbs + (count - 1) := by
  simp only [execCmdTableGrid, h, paintStep]
  split_ifs <;> simp <;> omega

/-- Witness for C7 at the claim's example: `count = 2, dx = 1, dy = 0`
increases `totalMovements` by exactly 2 (from 7 to 9). -/
theorem c7_grid_color_total_movements_witness :
    c7ExampleVars.grid = some (createEmptyGrid 5 5) ∧
    (execCmdTableGrid c7ExampleVars
        (.GRID_COLOR 2 Color.R 1 0 0)).1.totalMovements = 7 + 2 := by
  refine ⟨rfl, ?_⟩
  rw [c7_grid_color_total_movements c7ExampleVars (createEmptyGrid 5 5) 2
    Color.R 1 0 0 rfl]
  decide

/-- C9: when any line of a load attempt fails to parse for the active mode or
violates a cross-line structural rule (all of which surface as a
`parseProgram` error), `loadProgram` leaves the whole previously loaded state
unchanged — commands, program counter, grids, everything — and only records
the error. -/
theorem c9_load_failure_preserves_state (st : ProgramState) (code : List Char)
    (updateTarget : Bool) (e : Err)
    (h : parseProgram st.mode code = .error e) :
    loadProgram st code updateTarget = { st with error := some e } := by
  simp only [loadProgram, h]

/-- Witness for C9: reloading a previously loaded TABLE session with the
unparsable program `hello` records the syntax error and changes nothing
else. -/
theorem c9_load_failure_witness :
    parseProgram c9PriorState.mode ("hello".data) =
      .error (.syntaxInvalidFormat 0) ∧
    loadProgram c9PriorState ("hello".data) true =
      { c9PriorState with error := some (.syntaxInvalidFormat 0) } :=
  ⟨by decide,
    c9_load_failure_preserves_state c9PriorState ("hello".data) true
      (.syntaxInvalidFormat 0) (by decide)⟩

/-- C10: a line matching `rows#cols` is not a syntax error in MAZE or MATRIX
mode — the parser turns it into a `START` command before consulting the
mode-specific grammars — and the execution engine runs a `START` command in
those modes as a no-op: the engine locals (grids, maze, score, cursor,
movement counter) are returned unchanged with no error. -/
theorem c10_dims_line_parses_and_is_noop (line : List Char)
    (ln rows cols : Nat)
    (h : matchStartLine (trimStr line) = some (rows, cols)) :
    parseLine line ln Mode.MAZE = .ok [.START rows cols ln] ∧
    parseLine line ln Mode.MATRIX = .ok [.START rows cols ln] ∧
    (∀ es : EngineVars,
      execCmdMaze es (.START rows cols ln) = (es, none) ∧
      execCmdMatrix es (.START rows cols ln) = (es, none)) := by
  have hne : ¬(trimStr line = []) := by
    intro h0
    rw [h0] at h
    simp [matchStartLine, takeDigits] at h
  refine ⟨?_, ?_, fun es => ⟨rfl, rfl⟩⟩ <;>
    · simp only [parseLine, if_neg hne, h]
      rfl

/-- C6: in TABLE mode, on an initialized `rows x cols` grid, executing
`Color{count, color, row, col}` fails with a runtime error exactly when `row`
or `col` is out of bounds or `col + count` exceeds the column count (failure
leaves grid and last position untouched); on success it paints cells
`(row, col)` through `(row, col + count - 1)` with `color`, leaves every
other cell unchanged and sets the last painted position to
`(row, col + count - 1)`. -/
theorem c6_table_color_semantics (es : EngineVars) (grid : Grid)
    (rows cols count : Nat) (color : Color) (row col ln : Nat)
    (hg : es.grid = some grid)
    (hrows : grid.length = rows)
    (hcols : ∀ r ∈ grid, r.length = cols)
    (hpos : 0 < rows) :
    (((execCmdTableGrid es (.COLOR count color row col ln)).2 ≠ none) ↔
      (rows ≤ row ∨ cols ≤ col ∨ cols < col + count)) ∧
    ((execCmdTableGrid es (.COLOR count color row col ln)).2 ≠ none →
      (execCmdTableGrid es (.COLOR count color row col ln)).1.grid =
        some grid ∧
      (execCmdTableGrid es (.COLOR count color row col ln)).1.lastPos =
        es.lastPos) ∧
    ((execCmdTableGrid es (.COLOR count color row col ln)).2 = none →
      (execCmdTableGrid es (.COLOR count color row col ln)).1.lastPos =
        ((row : Int), (col : Int) + (count : Int) - 1) ∧
      ∃ grid2,
        (execCmdTableGrid es (.COLOR count color row col ln)).1.grid =
          some grid2 ∧
        ∀ r' c' : Nat, get2d grid2 r' c' =
          if r' = row ∧ col ≤ c' ∧ c' < col + count then some color
          else get2d grid r' c') := by
  have hrowlen : ∀ r : Nat, r < grid.length → (grid.getD r []).length = cols := by
    intro r hlt
    refine hcols _ ?_
    rw [List.getD_eq_getElem _ _ hlt]
    exact List.getElem_mem hlt
  have hcols0 : (grid.getD 0 []).length = cols := hrowlen 0 (by omega)
  simp only [execCmdTableGrid, hg, paintStep, hrows, hcols0]
  by_cases h1 : (row : Int) < 0 ∨ (rows : Int) ≤ (row : Int) ∨
      (col : Int) < 0 ∨ (cols : Int) ≤ (col : Int)
  · rw [if_pos h1]
    refine ⟨⟨fun _ => ?_, fun _ => ?_⟩, fun _ => ⟨by simp [hg], rfl⟩,
      fun hnone => absurd hnone (by simp)⟩
    · omega
    · simp
  · rw [if_neg h1]
    by_cases h2 : (cols : Int) < (col : Int) + (count : Int)
    · rw [if_pos h2]
      refine ⟨⟨fun _ => ?_, fun _ => ?_⟩, fun _ => ⟨by simp [hg], rfl⟩,
        fun hnone => absurd hnone (by simp)⟩
      · omega
      · simp
    · rw [if_neg h2]
      refine ⟨⟨fun hne => absurd rfl hne, fun hoob => ?_⟩,
        fun hne => absurd rfl hne, fun _ => ⟨rfl, ?_⟩⟩
      · omega
      · refine ⟨paintRange grid ((row : Int)).toNat ((col : Int)).toNat count
          color, rfl, ?_⟩
        intro r' c'
        have hrn : ((row : Int)).toNat = row := by omega
        have hcn : ((col : Int)).toNat = col := by omega
        rw [hrn, hcn]
        exact get2d_paintRange grid row col count color (by omega)
          (by rw [hrowlen row (by omega)]; omega) r' c'

/-- Witness for C6 at the claim's particular instance: `Color{3, R, 0, 0}` on
an empty 5x5 grid succeeds and sets the last position to `(0, 2)`. -/
theorem c6_table_color_witness :
    c6ExampleVars.grid = some (createEmptyGrid 5 5) ∧
    (execCmdTableGrid c6ExampleVars (.COLOR 3 Color.R 0 0 0)).2 = none ∧
    (execCmdTableGrid c6ExampleVars (.COLOR 3 Color.R 0 0 0)).1.lastPos =
      (0, 2) ∧
    get2d (((execCmdTableGrid c6ExampleVars
        (.COLOR 3 Color.R 0 0 0)).1.grid).getD []) 0 0 = some Color.R ∧
    get2d (((execCmdTableGrid c6ExampleVars
        (.COLOR 3 Color.R 0 0 0)).1.grid).getD []) 0 2 = some Color.R ∧
    get2d (((execCmdTableGrid c6ExampleVars
        (.COLOR 3 Color.R 0 0 0)).1.grid).getD []) 0 3 = none ∧
    get2d (((execCmdTableGrid c6ExampleVars
        (.COLOR 3 Color.R 0 0 0)).1.grid).getD []) 1 1 = none := by
  have h := c6_table_color_semantics c6ExampleVars (createEmptyGrid 5 5) 5 5 3
    Color.R 0 0 0 rfl (by decide) (by decide) (by decide)
  have h2 : (execCmdTableGrid c6ExampleVars (.COLOR 3 Color.R 0 0 0)).2 =
      none := by
    by_contra hne
    have := h.1.mp hne
    omega
  have h3 := (h.2.2 h2).1
  obtain ⟨grid2, hgrid2, hcells⟩ := (h.2.2 h2).2
  refine ⟨rfl, h2, by rw [h3]; decide, ?_, ?_, ?_, ?_⟩ <;>
    · rw [hgrid2]
      simp only [Option.getD_some]
      rw [hcells]
      decide

theorem muoviIter_shift (dir r c : Int) (k : Nat) :
    muoviIter dir (muoviDelta dir r c).1 (muoviDelta dir r c).2 k =
      muoviIter dir r c (k + 1) := by
  induction k with
  | zero => rfl
  | succ k ih => simp only [muoviIter, ih]

theorem muoviLoop_wall_error (walls : List (List MazeWallsCell)) (dir : Int)
    (s : Nat) :
    ∀ (steps : Nat) (r c : Int) (score : Nat) (items : List MazeItem)
      (visited : List (Int × Int)),
      s < steps →
      (∀ k, k < s → inMazeBounds (muoviIter dir r c (k + 1)) ∧
        wallBlocked (wallsAt walls (muoviIter dir r c k).1
          (muoviIter dir r c k).2) dir = false) →
      inMazeBounds (muoviIter dir r c (s + 1)) →
      wallBlocked (wallsAt walls (muoviIter dir r c s).1
        (muoviIter dir r c s).2) dir = true →
      muoviLoop walls dir steps r c score items visited =
        .error .mazeWallCollision := by
  induction s with
  | zero =>
      intro steps r c score items visited hs hpre hin hwall
      obtain ⟨steps2, rfl⟩ : ∃ t, steps = t + 1 := ⟨steps - 1, by omega⟩
      have hin2 : inMazeBounds (muoviDelta dir r c) := hin
      have hwall2 : wallBlocked (wallsAt walls r c) dir = true := hwall
      obtain ⟨h1, h2, h3, h4⟩ := hin2
      simp only [muoviLoop]
      rw [if_neg (by omega), if_pos hwall2]
  | succ s ih =>
      intro steps r c score items visited hs hpre hin hwall
      obtain ⟨steps2, rfl⟩ : ∃ t, steps = t + 1 := ⟨steps - 1, by omega⟩
      obtain ⟨hin0, hwall0⟩ := hpre 0 (by omega)
      have hin0' : inMazeBounds (muoviDelta dir r c) := hin0
      have hwall0' : wallBlocked (wallsAt walls r c) dir = false := hwall0
      obtain ⟨h1, h2, h3, h4⟩ := hin0'
      simp only [muoviLoop]
      rw [if_neg (by omega), if_neg (by simp [hwall0'])]
      have happly : ∀ (score2 : Nat) (items2 : List MazeItem)
          (visited2 : List (Int × Int)),
          muoviLoop walls dir steps2 (muoviDelta dir r c).1
            (muoviDelta dir r c).2 score2 items2 visited2 =
            .error .mazeWallCollision := by
        intro score2 items2 visited2
        refine ih steps2 _ _ score2 items2 visited2 (by omega) ?_ ?_ ?_
        · intro k hk
          rw [muoviIter_shift, muoviIter_shift]
          exact hpre (k + 1) (by omega)
        · rw [muoviIter_shift]
          exact hin
        · rw [muoviIter_shift]
          exact hwall
      cases hcol : collectItemAt items (muoviDelta dir r c).1
          (muoviDelta dir r c).2 with
      | some p => exact happly _ _ _
      | none => exact happly _ _ _

/-- C8: in MAZE mode, when a reached single-cell advance of a `muovi`
command crosses an edge whose wall flag is set on the current cell (all
earlier advances of the command stay in bounds and cross no wall, and the
cell beyond the flagged edge exists), the engine raises the collision error,
halts the run with completion status `failure`, and the whole maze state —
in particular the turtle's position — is exactly what it was before the
`muovi` command began. -/
theorem c8_maze_wall_collision_halts (st : ProgramState) (ms : MazeState)
    (steps s ln : Nat)
    (hmode : st.mode = .MAZE)
    (hrun : st.isRunning = true)
    (hpc : st.pc < st.commands.length)
    (hcmd : st.commands.getD st.pc (.START 0 0 0) = .MUOVI steps ln)
    (hms : st.mazeState = some ms)
    (hs : s < steps)
    (hpre : ∀ k, k < s →
      inMazeBounds (muoviIter ms.turtle.dir ms.turtle.r ms.turtle.c (k + 1)) ∧
      wallBlocked (wallsAt ms.walls
        (muoviIter ms.turtle.dir ms.turtle.r ms.turtle.c k).1
        (muoviIter ms.turtle.dir ms.turtle.r ms.turtle.c k).2)
        ms.turtle.dir = false)
    (hin : inMazeBounds
      (muoviIter ms.turtle.dir ms.turtle.r ms.turtle.c (s + 1)))
    (hwall : wallBlocked (wallsAt ms.walls
        (muoviIter ms.turtle.dir ms.turtle.r ms.turtle.c s).1
        (muoviIter ms.turtle.dir ms.turtle.r ms.turtle.c s).2)
        ms.turtle.dir = true) :
    (step st).error = some Err.mazeWallCollision ∧
    (step st).mazeState = st.mazeState ∧
    (step st).mazeScore = st.mazeScore ∧
    (step st).currentGrid = st.currentGrid ∧
    (step st).isRunning = false ∧
    (step st).completionStatus = CompletionStatus.failure := by
  have hml := muoviLoop_wall_error ms.walls ms.turtle.dir s steps ms.turtle.r
    ms.turtle.c st.mazeScore ms.items ms.visited hs hpre hin hwall
  have hdrop : st.commands.drop st.pc =
      .MUOVI steps ln :: st.commands.drop (st.pc + 1) := by
    rw [List.drop_eq_getElem_cons hpc]
    rw [← List.getD_eq_getElem st.commands (.START 0 0 0) hpc, hcmd]
  unfold step
  rw [if_neg (by simp [hrun]; omega)]
  rw [hcmd, hdrop, hmode]
  simp only [runBatch, Command.lineNumber, if_pos, execCmd, execCmdMaze, hms,
    hml]
  simp [hrun]

/-- Witness for C8: the turtle at (8, 8) of the serpentine maze faces North,
where the top edge of its cell is walled; `muovi 1` raises the collision
error and leaves the maze state unchanged. -/
theorem c8_maze_wall_collision_witness :
    (step c8State).error = some Err.mazeWallCollision ∧
    (step c8State).mazeState = some c8MazeState ∧
    (step c8State).completionStatus = CompletionStatus.failure := by
  have h := c8_maze_wall_collision_halts c8State c8MazeState 1 0 0 rfl rfl
    (by decide) (by decide) rfl (by decide)
    (fun k hk => absurd hk (by omega)) (by decide) (by decide)
  exact ⟨h.1, h.2.1, h.2.2.2.2.2⟩

/-- Witness for C10: the line `5#5` parses as `Start{5,5}` in both MAZE and
MATRIX mode. -/
theorem c10_dims_line_witness :
    parseLine ("5#5".data) 0 Mode.MAZE = .ok [.START 5 5 0] ∧
    parseLine ("5#5".data) 0 Mode.MATRIX = .ok [.START 5 5 0] := by
  have h := c10_dims_line_parses_and_is_noop ("5#5".data) 0 5 5 (by decide)
  exact ⟨h.1, h.2.1⟩

end Tabella
